import Mathlib

/-!
Verification of the PRTG Grafana datasource core.

A shallow embedding, in Lean 4, of the query-translation and
time-series-normalization engine of the `prtg-grafana` repository.

The repository ships several revisions of each Go file concatenated
together.  Revision-specific definitions live in the namespaces
`ApiV1`/`ApiV2` (the two revisions of `pkg/plugin/prtg_api.go`),
`DatasourceV1`/`DatasourceV2` (the two revisions of
`pkg/plugin/datasource.go`) and `RouterV1`/`RouterV2` (the two revisions
of the query router file, whose first revision carries the
`(*Datasource).query`/`handlePropertyQuery` pair and whose second
carries the `(*PRTGDatasource)` variants).

Modelling conventions:
* Go `string` is Lean `String`; Go `int`/`int64` are `Int` (no claim
  below exercises machine-integer overflow); Go `float64` values that
  flow through the dynamic maps are modelled as `Rat` (every value the
  claims touch is produced from integers or short decimal literals,
  where `float64` arithmetic is exact).
* Go `map[string]interface{}` is an association list with unique keys
  (the JSON decoder produces unique keys); list order stands in for
  Go's unspecified map iteration order.
* HTTP transport is a parameter: a function under verification receives
  the outcome of its (single) request/deserialize step and returns the
  list of requests it actually issued, so "no HTTP request is made" is
  the statement that this list is empty.
-/

/-! ## Small Go-library helpers (strings and numbers) -/

/-- Split a character list at every occurrence of `sep`.  This is Go's
`strings.Split` for a one-character separator (every separator used by
the code under verification — `" "`, `"."`, `":"`, `"-"` — is one
character): `"" ↦ [""]`, `"a..b" ↦ ["a","","b"]`. -/
def splitOnChar (sep : Char) : List Char → List (List Char)
  | [] => [[]]
  | c :: rest =>
    let r := splitOnChar sep rest
    if c = sep then [] :: r
    else
      match r with
      | [] => [[c]]
      | h :: t => (c :: h) :: t

/-- Go `strings.Split s sep` for a one-character `sep`, on Lean strings. -/
def goSplit (s : String) (sep : Char) : List String :=
  (splitOnChar sep s.data).map (fun cs => String.mk cs)

/-- Read a nonempty all-digit character list as a natural number. -/
def digitsToNatAux : List Char → Nat → Option Nat
  | [], acc => some acc
  | c :: rest, acc =>
    if c.isDigit then digitsToNatAux rest (10 * acc + (c.toNat - 48))
    else none

def digitsToNat : List Char → Option Nat
  | [] => none
  | cs => digitsToNatAux cs 0

/-- Go `strconv.Atoi`, as used by the code under verification: the callers
discard the error and keep the value, and Go returns `0` together with an
error on any syntax error, so the model returns `0` on failure.  (Go also
clamps on range errors; no claim exercises integers of that size.) -/
def atoi (s : String) : Int :=
  match s.data with
  | '-' :: rest =>
    match digitsToNat rest with
    | some n => -(n : Int)
    | none => 0
  | '+' :: rest =>
    match digitsToNat rest with
    | some n => (n : Int)
    | none => 0
  | cs =>
    match digitsToNat cs with
    | some n => (n : Int)
    | none => 0

/-- Go `strings.HasSuffix`. -/
def hasSuffix (s suffix : String) : Bool :=
  suffix.data.isSuffixOf s.data

/-- Go `strings.ToLower`.  (Go lowercases all of Unicode; `Char.toLower`
covers ASCII, which is all the channel and property names under the
claims use.) -/
def goToLower (s : String) : String :=
  String.mk (s.data.map Char.toLower)

/-- A Go `map[string]T` read, on the association-list model: the first
binding of the key, if any. -/
def mapGet {α : Type} (m : List (String × α)) (key : String) : Option α :=
  match m with
  | [] => none
  | (k, v) :: rest => if k = key then some v else mapGet rest key

example : goSplit "15.02.2025" '.' = ["15", "02", "2025"] := by decide
example : goSplit "2025-02-15T12:00:00Z" ' ' = ["2025-02-15T12:00:00Z"] := by decide
example : atoi "2025" = 2025 := by decide
example : hasSuffix "status_raw" "_raw" = true := by decide
example : hasSuffix "status" "_raw" = false := by decide

/-- Unsigned decimal part of `strconv.ParseFloat`: digits with at most one
dot, at least one digit overall. -/
def parseFloatUnsigned (cs : List Char) : Option Rat :=
  match splitOnChar '.' cs with
  | [ip] => (digitsToNat ip).map (fun n => (n : Rat))
  | [ip, fp] =>
    if ip.isEmpty && fp.isEmpty then none
    else
      match (if ip.isEmpty then some 0 else digitsToNat ip),
            (if fp.isEmpty then some 0 else digitsToNat fp) with
      | some n, some f => some ((n : Rat) + (f : Rat) / ((10 : Rat) ^ fp.length))
      | _, _ => none
  | _ => none

/-- Go `strconv.ParseFloat` on the plain decimal forms (`-12`, `3.5`,
`.5`, `5.`).  The exponent, hexadecimal and `Inf`/`NaN` forms Go also
accepts are not modelled: every theorem below that touches this function
holds for an arbitrary accepted set, and no claim constrains it. -/
def parseFloat (s : String) : Option Rat :=
  match s.data with
  | [] => none
  | c :: rest =>
    if c = '-' then (parseFloatUnsigned rest).map (fun q => -q)
    else if c = '+' then parseFloatUnsigned rest
    else parseFloatUnsigned (c :: rest)

example : parseFloat "78.9" = some (789 / 10 : Rat) := by
  simp [parseFloat, parseFloatUnsigned, splitOnChar, digitsToNat, digitsToNatAux]
  norm_num
example : parseFloat "x1" = none := by decide

/-! ## Times

`time.Time` values are modelled by their broken-down calendar fields.
The code under verification never does arithmetic on parsed times — it
only builds them, formats them, and hands them to the frame — so the
normalization `time.Date` applies to out-of-range fields, and the local
time zone Go attaches, are not modelled; every claim below depends only
on parse success/failure and on the error text. -/

structure DateParts where
  year : Int
  month : Int
  day : Int
  hour : Int
  minute : Int
  second : Int
deriving DecidableEq, Repr

/-- The zero `time.Time` (January 1, year 1, 00:00:00). -/
def zeroDateParts : DateParts := ⟨1, 1, 1, 0, 0, 0⟩

/-- Civil date from days since the Unix epoch (Howard Hinnant's
`civil_from_days`, with floor division written out). -/
def civilFromDays (z0 : Int) : Int × Int × Int :=
  let z := z0 + 719468
  let era := z.fdiv 146097
  let doe := z - era * 146097
  let yoe := (doe - doe.fdiv 1460 + doe.fdiv 36524 - doe.fdiv 146096).fdiv 365
  let y := yoe + era * 400
  let doy := doe - (365 * yoe + yoe.fdiv 4 - yoe.fdiv 100)
  let mp := (5 * doy + 2).fdiv 153
  let d := doy - (153 * mp + 2).fdiv 5 + 1
  let m := mp + (if mp < 10 then 3 else -9)
  (y + (if m <= 2 then 1 else 0), m, d)

/-- Calendar fields of a Unix-epoch millisecond timestamp, in UTC.
(Go renders `sdate`/`edate` in the server's local zone; the claims never
constrain the rendered text, so UTC is used here.) -/
def epochMillisToDateParts (ms : Int) : DateParts :=
  let s := ms.fdiv 1000
  let days := s.fdiv 86400
  let secOfDay := s.fmod 86400
  let (y, m, d) := civilFromDays days
  ⟨y, m, d, secOfDay.fdiv 3600, (secOfDay.fmod 3600).fdiv 60, secOfDay.fmod 60⟩

def padNum (width : Nat) (n : Int) : String :=
  let digits := toString n.natAbs
  let pad := String.mk (List.replicate (width - digits.length) '0')
  (if n < 0 then "-" else "") ++ pad ++ digits

/-- Go `t.Format "2006-01-02-15-04-05"`, the vendor timestamp format the
historical-data fetcher sends as `sdate`/`edate`. -/
def formatGoDateTime (ms : Int) : String :=
  let p := epochMillisToDateParts ms
  padNum 4 p.year ++ "-" ++ padNum 2 p.month ++ "-" ++ padNum 2 p.day ++ "-" ++
    padNum 2 p.hour ++ "-" ++ padNum 2 p.minute ++ "-" ++ padNum 2 p.second

example : formatGoDateTime 0 = "1970-01-01-00-00-00" := by decide
example : epochMillisToDateParts 1739620800000 = ⟨2025, 2, 15, 12, 0, 0⟩ := by decide

/-! ## Dynamic values

A Go `interface{}` as it occurs in this code: either a value decoded
from JSON (`float64`, `string`, `bool`, `nil`, arrays, objects) or a
typed struct field boxed by the property resolver (`int`, `bool`,
`string`, `float64`). -/

inductive GoValue where
  | null : GoValue
  | bool (b : Bool) : GoValue
  | int (n : Int) : GoValue
  | float (q : Rat) : GoValue
  | str (s : String) : GoValue
  | arr (elems : List GoValue) : GoValue
  | obj (fields : List (String × GoValue)) : GoValue

/-! ## `pkg/plugin/types.go` -/

/-- Struct `PrtgValues` (types.go): the timestamp and the dynamic per-point
value map. -/
structure PrtgValues where
  Datetime : String := ""
  Value : List (String × GoValue) := []

/-- Method `(*PrtgValues).UnmarshalJSON` (types.go, identical in both
revisions), applied to the already-decoded JSON object `raw`: the
`"datetime"` key's value is stored in `Datetime` when it is a string,
the key is deleted from the map, and the rest becomes `Value`.  A fresh
decode starts from the zero value, so `Datetime` stays `""` when the key
is absent or not a string.  (`delete` removes the unique binding of the
key; on the association-list model this is a filter.) -/
def PrtgValues.UnmarshalJSON (raw : List (String × GoValue)) : PrtgValues :=
  { Datetime :=
      match mapGet raw "datetime" with
      | some (GoValue.str dt) => dt
      | _ => ""
    Value := raw.filter (fun kv => kv.1 ≠ "datetime") }

/-- Struct `PrtgHistoricalDataResponse` (types.go). -/
structure PrtgHistoricalDataResponse where
  PrtgVersion : String := ""
  TreeSize : Int := 0
  HistData : List PrtgValues := []

/-- Struct `PrtgGroupListItemStruct` (types.go). -/
structure PrtgGroupListItemStruct where
  Active : Bool := false
  ActiveRAW : Int := 0
  Channel : String := ""
  ChannelRAW : String := ""
  Datetime : String := ""
  DatetimeRAW : Rat := 0
  Device : String := ""
  DeviceRAW : String := ""
  Downsens : String := ""
  DownsensRAW : Int := 0
  Group : String := ""
  GroupRAW : String := ""
  Message : String := ""
  MessageRAW : String := ""
  ObjectId : Int := 0
  ObjectIdRAW : Int := 0
  Pausedsens : String := ""
  PausedsensRAW : Int := 0
  Priority : String := ""
  PriorityRAW : Int := 0
  Sensor : String := ""
  SensorRAW : String := ""
  Status : String := ""
  StatusRAW : Int := 0
  Tags : String := ""
  TagsRAW : String := ""
  Totalsens : String := ""
  TotalsensRAW : Int := 0
  Unusualsens : String := ""
  UnusualsensRAW : Int := 0
  Upsens : String := ""
  UpsensRAW : Int := 0
  Warnsens : String := ""
  WarnsensRAW : Int := 0

/-- Struct `PrtgDeviceListItemStruct` (types.go). -/
structure PrtgDeviceListItemStruct where
  Active : Bool := false
  ActiveRAW : Int := 0
  Channel : String := ""
  ChannelRAW : String := ""
  Datetime : String := ""
  DatetimeRAW : Rat := 0
  Device : String := ""
  DeviceRAW : String := ""
  Downsens : String := ""
  DownsensRAW : Int := 0
  Group : String := ""
  GroupRAW : String := ""
  Message : String := ""
  MessageRAW : String := ""
  ObjectId : Int := 0
  ObjectIdRAW : Int := 0
  Pausedsens : String := ""
  PausedsensRAW : Int := 0
  Priority : String := ""
  PriorityRAW : Int := 0
  Sensor : String := ""
  SensorRAW : String := ""
  Status : String := ""
  StatusRAW : Int := 0
  Tags : String := ""
  TagsRAW : String := ""
  Totalsens : String := ""
  TotalsensRAW : Int := 0
  Unusualsens : String := ""
  UnusualsensRAW : Int := 0
  Upsens : String := ""
  UpsensRAW : Int := 0
  Warnsens : String := ""
  WarnsensRAW : Int := 0

/-- Struct `PrtgSensorListItemStruct` (types.go; its `ChannelRAW` is an `int`,
unlike the group/device structs). -/
structure PrtgSensorListItemStruct where
  Active : Bool := false
  ActiveRAW : Int := 0
  Channel : String := ""
  ChannelRAW : Int := 0
  Datetime : String := ""
  DatetimeRAW : Rat := 0
  Device : String := ""
  DeviceRAW : String := ""
  Downsens : String := ""
  DownsensRAW : Int := 0
  Group : String := ""
  GroupRAW : String := ""
  Message : String := ""
  MessageRAW : String := ""
  ObjectId : Int := 0
  ObjectIdRAW : Int := 0
  Pausedsens : String := ""
  PausedsensRAW : Int := 0
  Priority : String := ""
  PriorityRAW : Int := 0
  Sensor : String := ""
  SensorRAW : String := ""
  Status : String := ""
  StatusRAW : Int := 0
  Tags : String := ""
  TagsRAW : String := ""
  Totalsens : String := ""
  TotalsensRAW : Int := 0
  Unusualsens : String := ""
  UnusualsensRAW : Int := 0
  Upsens : String := ""
  UpsensRAW : Int := 0
  Warnsens : String := ""
  WarnsensRAW : Int := 0

/-- Struct `PrtgGroupListResponse` (types.go). -/
structure PrtgGroupListResponse where
  PrtgVersion : String := ""
  TreeSize : Int := 0
  Groups : List PrtgGroupListItemStruct := []

/-- Struct `PrtgDevicesListResponse` (types.go). -/
structure PrtgDevicesListResponse where
  PrtgVersion : String := ""
  TreeSize : Int := 0
  Devices : List PrtgDeviceListItemStruct := []

/-- Struct `PrtgSensorsListResponse` (types.go). -/
structure PrtgSensorsListResponse where
  PrtgVersion : String := ""
  TreeSize : Int := 0
  Sensors : List PrtgSensorListItemStruct := []

/-- Struct `queryModel` (types.go).  Field defaults are Go's zero values, which
is what `json.Unmarshal` leaves in place for absent keys. -/
structure queryModel where
  QueryType : String := ""
  ObjectId : String := ""
  Group : String := ""
  Device : String := ""
  Sensor : String := ""
  Channel : String := ""
  Property : String := ""
  FilterProperty : String := ""
  IncludeGroupName : Bool := false
  IncludeDeviceName : Bool := false
  IncludeSensorName : Bool := false
  Groups : List String := []
  Devices : List String := []
  Sensors : List String := []
  From : Int := 0
  To : Int := 0

/-! ## Frames and responses

A `data.Frame` as this code builds it always holds exactly one time
field and one value field (`float64` or `string` column) plus the value
field's display name; `backend.DataResponse` carries the frames and an
optional error (`backend.ErrDataResponse` sets the error and no frames —
the HTTP-ish status code it also carries is dropped, no claim mentions
it). -/

inductive FrameValues where
  | floats (l : List Rat) : FrameValues
  | strs (l : List String) : FrameValues
deriving DecidableEq

def FrameValues.length : FrameValues → Nat
  | .floats l => l.length
  | .strs l => l.length

structure Frame where
  times : List DateParts
  values : FrameValues
  displayName : String
deriving DecidableEq

structure DataResponse where
  frames : List Frame := []
  error : Option String := none
deriving DecidableEq

/-- Function `backend.ErrDataResponse` (status dropped, see above). -/
def ErrDataResponse (msg : String) : DataResponse :=
  { frames := [], error := some msg }

/-! ## `pkg/plugin/prtg_api.go` — `GetHistoricalData`, both revisions

The transport/deserialize step is a parameter (`HistFetchOutcome`), and
each function returns, next to its result, the list of
`historicdata.json` requests it issued, so "no HTTP request is made" is
provable as "the request list is empty".

Errors are structured; each constructor's comment quotes the Go message
text of the two revisions (first revision German, second English). -/

/-- Outcome of `baseExecuteRequest` followed by `json.Unmarshal`, for a
single `historicdata.json` call. -/
inductive HistFetchOutcome where
  | httpError (msg : String) : HistFetchOutcome
  | parseError (msg : String) : HistFetchOutcome
  | ok (response : PrtgHistoricalDataResponse) : HistFetchOutcome

inductive ApiError where
  /-- "ungültige Anfrage: Sensor-ID fehlt" / "invalid query: missing sensor ID" -/
  | missingSensorId : ApiError
  /-- "ungültiger Zeitraum: Startzeit ... muss vor Endzeit ... liegen" /
  "invalid time range: start date ... must be before end date ..." -/
  | invalidTimeRange : ApiError
  /-- "historische Daten konnten nicht abgerufen werden: ..." /
  "failed to fetch historical data: ..." -/
  | fetchFailed (msg : String) : ApiError
  /-- "Fehler beim Parsen des Response: ..." / "failed to parse response: ..." -/
  | parseFailed (msg : String) : ApiError
  /-- "keine Daten für den angegebenen Zeitraum gefunden" /
  "no data found for the given time range" -/
  | noDataFound : ApiError
deriving DecidableEq

/-- The query parameters of one `historicdata.json` request
(`count=50000`, `usecaption=1` and `columns=datetime,value_` are fixed
and omitted). -/
structure HistRequestParams where
  id : String
  avg : String
  sdate : String
  edate : String
deriving DecidableEq

/-- Go `endTime.Sub(startTime).Hours()` for two `time.UnixMilli` instants. -/
def hoursOf (startDate endDate : Int) : Rat :=
  ((endDate - startDate : Int) : Rat) / 3600000

namespace ApiV1

/-- The averaging switch of the first revision's `GetHistoricalData`
(prtg_api.go lines 195–205; written inline there). -/
def selectAvg (hours : Rat) : String :=
  if hours > 745 then "86400"
  else if hours > 36 then "3600"
  else if hours > 12 then "300"
  else "0"

/-- Numeric mirror of `selectAvg`(the `avg` parameter in seconds). -/
def avgSeconds (hours : Rat) : Nat :=
  if hours > 745 then 86400
  else if hours > 36 then 3600
  else if hours > 12 then 300
  else 0

/-- First revision of `(*Api).GetHistoricalData` (prtg_api.go): reject an
empty sensor ID, format the bounds, reject a start that is not strictly
before the end (`!startTime.Before(endTime)`, i.e. `startDate ≥ endDate`
since `time.UnixMilli` is strictly monotone), choose the averaging
value, issue the one request, wrap transport/parse failures, and treat
an empty `histdata` list as an error. -/
def GetHistoricalData (sensorID : String) (startDate endDate : Int)
    (transport : HistFetchOutcome) :
    Except ApiError PrtgHistoricalDataResponse × List HistRequestParams :=
  if sensorID = "" then (Except.error ApiError.missingSensorId, [])
  else
    let sdate := formatGoDateTime startDate
    let edate := formatGoDateTime endDate
    if ¬ (startDate < endDate) then (Except.error ApiError.invalidTimeRange, [])
    else
      let hours := hoursOf startDate endDate
      let avg := selectAvg hours
      let params : HistRequestParams := ⟨sensorID, avg, sdate, edate⟩
      match transport with
      | HistFetchOutcome.httpError m => (Except.error (ApiError.fetchFailed m), [params])
      | HistFetchOutcome.parseError m => (Except.error (ApiError.parseFailed m), [params])
      | HistFetchOutcome.ok response =>
        if response.HistData.length = 0 then (Except.error ApiError.noDataFound, [params])
        else (Except.ok response, [params])

end ApiV1

namespace ApiV2

/-- The averaging switch of the second revision's `GetHistoricalData`
(prtg_api.go lines 467–487; written inline there). -/
def selectAvg (hours : Rat) : String :=
  if hours ≤ 24 then "0"
  else if hours ≤ 48 then "60"
  else if hours ≤ 72 then "300"
  else if hours ≤ 168 then "900"
  else if hours ≤ 336 then "1800"
  else if hours ≤ 720 then "3600"
  else if hours ≤ 1440 then "7200"
  else if hours ≤ 2160 then "14400"
  else "86400"

/-- Numeric mirror of `selectAvg` (the `avg` parameter in seconds). -/
def avgSeconds (hours : Rat) : Nat :=
  if hours ≤ 24 then 0
  else if hours ≤ 48 then 60
  else if hours ≤ 72 then 300
  else if hours ≤ 168 then 900
  else if hours ≤ 336 then 1800
  else if hours ≤ 720 then 3600
  else if hours ≤ 1440 then 7200
  else if hours ≤ 2160 then 14400
  else 86400

/-- Second revision of `(*Api).GetHistoricalData` (prtg_api.go): same
shape as the first, with the ordering check written as `hours <= 0`
(equivalent to `startDate ≥ endDate`) and a finer averaging table. -/
def GetHistoricalData (sensorID : String) (startDate endDate : Int)
    (transport : HistFetchOutcome) :
    Except ApiError PrtgHistoricalDataResponse × List HistRequestParams :=
  if sensorID = "" then (Except.error ApiError.missingSensorId, [])
  else
    let sdate := formatGoDateTime startDate
    let edate := formatGoDateTime endDate
    let hours := hoursOf startDate endDate
    if hours ≤ 0 then (Except.error ApiError.invalidTimeRange, [])
    else
      let avg := selectAvg hours
      let params : HistRequestParams := ⟨sensorID, avg, sdate, edate⟩
      match transport with
      | HistFetchOutcome.httpError m => (Except.error (ApiError.fetchFailed m), [params])
      | HistFetchOutcome.parseError m => (Except.error (ApiError.parseFailed m), [params])
      | HistFetchOutcome.ok response =>
        if response.HistData.length = 0 then (Except.error ApiError.noDataFound, [params])
        else (Except.ok response, [params])

end ApiV2

/-! ## `pkg/plugin/datasource.go` — both revisions -/

namespace DatasourceV1

/-- First revision of `parsePRTGDateTime` (datasource.go lines 81–113):
split on `" "` into exactly two parts, the date on `"."` into exactly
three, the time on `":"` into exactly three, `strconv.Atoi` each field
with the error discarded, and build the time.  (Go runs the date `Atoi`
calls before checking the time part's shape; `atoi` is pure, so the
result is unaffected.  `time.Date`'s normalization of out-of-range
fields and the local zone are not modelled, see `DateParts`.) -/
def parsePRTGDateTime (datetime : String) : Except String DateParts :=
  match goSplit datetime ' ' with
  | [datePart, timePart] =>
    match goSplit datePart '.' with
    | [dd, mm, yyyy] =>
      match goSplit timePart ':' with
      | [hh, mi, ss] =>
        Except.ok ⟨atoi yyyy, atoi mm, atoi dd, atoi hh, atoi mi, atoi ss⟩
      | _ => Except.error ("invalid time format: " ++ timePart)
    | _ => Except.error ("invalid date format: " ++ datePart)
  | _ => Except.error ("invalid datetime format: " ++ datetime)

/-- The case-insensitive fallback loop of `extractValue`: scan the map
(list order stands in for Go's map iteration order) for a key equal to
the channel up to `strings.ToLower`, and return its value when that
value is a `float64`; a case-insensitive match with a non-float value
does not stop the scan. -/
def extractValueFallback (values : List (String × GoValue)) (lowerChannel : String) :
    Option Rat :=
  match values with
  | [] => none
  | (k, v) :: rest =>
    if goToLower k = lowerChannel then
      match v with
      | GoValue.float q => some q
      | _ => extractValueFallback rest lowerChannel
    else extractValueFallback rest lowerChannel

/-- Method `(*Datasource).extractValue` (datasource.go lines 180–203): reject an
empty channel, try a direct map lookup (used only when it yields a
`float64`), then fall back to a case-insensitive scan. -/
def extractValue (values : List (String × GoValue)) (channel : String) : Rat × Bool :=
  if channel = "" then (0, false)
  else
    match mapGet values channel with
    | some (GoValue.float q) => (q, true)
    | _ =>
      match extractValueFallback values (goToLower channel) with
      | some q => (q, true)
      | none => (0, false)

end DatasourceV1

namespace DatasourceV2

/-- Second revision of `parsePRTGDateTime` (datasource.go lines 556–590):
rearrange `DD.MM.YYYY HH:mm:ss` into `YYYY-MM-DD HH:mm:ss` without
touching the time part (this revision does not check the time part's
shape).  The debug-log file it also appends to is I/O the claims do not
mention and is not modelled. -/
def parsePRTGDateTime (datetime : String) : Except String String :=
  match goSplit datetime ' ' with
  | [datePart, timePart] =>
    match goSplit datePart '.' with
    | [dd, mm, yyyy] =>
      Except.ok (yyyy ++ "-" ++ mm ++ "-" ++ dd ++ " " ++ timePart)
    | _ => Except.error ("invalid date format: " ++ datePart)
  | _ => Except.error ("invalid datetime format: " ++ datetime)

def isLeapYear (y : Int) : Bool :=
  (y.emod 4 == 0 && y.emod 100 != 0) || y.emod 400 == 0

def daysInMonth (y m : Int) : Int :=
  if m = 2 then (if isLeapYear y then 29 else 28)
  else if m = 4 ∨ m = 6 ∨ m = 9 ∨ m = 11 then 30
  else 31

/-- Go `time.Parse "2006-01-02 15:04:05"` on its canonical layout: shape
plus range validation (month, day-in-month, hour, minute, second).
Digit-width lenience beyond the canonical shape is not modelled; the
only strings this is applied to are rearrangements produced by
`parsePRTGDateTime`, and no claim depends on the boundary of the
accepted set. -/
def goTimeParse (s : String) : Option DateParts :=
  match goSplit s ' ' with
  | [d, tm] =>
    match goSplit d '-' with
    | [ys, ms, ds] =>
      match goSplit tm ':' with
      | [hs, mis, ss] =>
        match digitsToNat ys.data, digitsToNat ms.data, digitsToNat ds.data,
              digitsToNat hs.data, digitsToNat mis.data, digitsToNat ss.data with
        | some y, some mo, some da, some h, some mi, some se =>
          if 1 ≤ mo ∧ mo ≤ 12 ∧ 1 ≤ da ∧ (da : Int) ≤ daysInMonth y mo ∧
              h < 24 ∧ mi < 60 ∧ se < 60 then
            some ⟨y, mo, da, h, mi, se⟩
          else none
        | _, _, _, _, _, _ => none
      | _ => none
    | _ => none
  | _ => none

/-- The point-processing loop of the second revision's metric query
(datasource.go lines 627–664): `times` and `values` are preallocated
with length `len(HistData)` and filled by index, so a point whose
datetime fails either parsing step, or whose channel is absent or not a
`float64`, leaves the zero `time.Time` and `0.0` at its index. -/
def processHistData (histData : List PrtgValues) (channel : String) :
    List DateParts × List Rat :=
  let pairs := histData.map (fun item =>
    match parsePRTGDateTime item.Datetime with
    | Except.error _ => (zeroDateParts, (0 : Rat))
    | Except.ok formatted =>
      match goTimeParse formatted with
      | none => (zeroDateParts, (0 : Rat))
      | some t =>
        match mapGet item.Value channel with
        | some (GoValue.float v) => (t, v)
        | _ => (zeroDateParts, (0 : Rat)))
  (pairs.map Prod.fst, pairs.map Prod.snd)

end DatasourceV2

example :
    DatasourceV1.parsePRTGDateTime "15.02.2025 12:00:00" =
      Except.ok ⟨2025, 2, 15, 12, 0, 0⟩ := by rfl
example :
    DatasourceV1.parsePRTGDateTime "2025-02-15T12:00:00Z" =
      Except.error "invalid datetime format: 2025-02-15T12:00:00Z" := by rfl
example :
    DatasourceV2.parsePRTGDateTime "15.02.2025 12:00:00" =
      Except.ok "2025-02-15 12:00:00" := by rfl
example : DatasourceV2.goTimeParse "2025-02-15 12:00:00" = some ⟨2025, 2, 15, 12, 0, 0⟩ := by
  decide

/-! ## The query router file — shared helpers -/

/-- Replace every occurrence of `pattern` (assumed nonempty; every
pattern used below is) by `repl`, Go's `strings.ReplaceAll`.  Each step
consumes at least one character, so recursion on a fuel initialized to
the list length (structural, hence kernel-evaluable) is exact. -/
def replaceAllFuel (pattern repl : List Char) : Nat → List Char → List Char
  | _, [] => []
  | 0, l => l
  | fuel + 1, c :: rest =>
    if pattern.isPrefixOf (c :: rest) ∧ pattern ≠ [] then
      repl ++ replaceAllFuel pattern repl fuel (rest.drop (pattern.length - 1))
    else
      c :: replaceAllFuel pattern repl fuel rest

def replaceAllStr (s pattern repl : String) : String :=
  String.mk (replaceAllFuel pattern.data repl.data s.data.length s.data)

/-- Go `strings.TrimSpace`. -/
def trimChars (cs : List Char) : List Char :=
  ((cs.dropWhile Char.isWhitespace).reverse.dropWhile Char.isWhitespace).reverse

/-- Function `cleanMessageHTML` (query router, first revision): strip the two
known wrapper `div` tags and the closing tag, then trim whitespace. -/
def cleanMessageHTML (message : String) : String :=
  let m1 := replaceAllStr message "<div class=\"status\">" ""
  let m2 := replaceAllStr m1 "<div class=\"moreicon\">" ""
  let m3 := replaceAllStr m2 "</div>" ""
  String.mk (trimChars m3.data)

example : cleanMessageHTML "<div class=\"status\">OK</div><div class=\"moreicon\"></div>" = "OK" := by decide

/-! ## Query router, first revision (`(*Datasource).query` and friends)

The three-result `parsePRTGDateTime` this revision calls is not among
the source files (only its call sites are), so these definitions take
the parser as a parameter `parse`; every theorem below about them is
quantified over it, except for concrete witnesses, which use the
spec-modelled `specParsePRTGDateTime` defined further down. -/

namespace RouterV1

def validProperties : List String :=
  ["group", "device", "sensor",
   "status", "status_raw",
   "message", "message_raw",
   "active", "active_raw",
   "priority", "priority_raw",
   "tags", "tags_raw"]

/-- Method `(*Datasource).isValidPropertyType`. -/
def isValidPropertyType (propertyType : String) : Bool :=
  validProperties.contains (goToLower propertyType)

/-- The `filterProperty` switch of the `"group"` branch of
`handlePropertyQuery` (first revision); `none` is Go's nil `value`. -/
def groupPropValue (filterProperty : String) (g : PrtgGroupListItemStruct) :
    Option GoValue :=
  match filterProperty with
  | "active" => some (GoValue.bool g.Active)
  | "active_raw" => some (GoValue.int g.ActiveRAW)
  | "message" => some (GoValue.str (cleanMessageHTML g.Message))
  | "message_raw" => some (GoValue.str g.MessageRAW)
  | "priority" => some (GoValue.str g.Priority)
  | "priority_raw" => some (GoValue.int g.PriorityRAW)
  | "status" => some (GoValue.str g.Status)
  | "status_raw" => some (GoValue.int g.StatusRAW)
  | "tags" => some (GoValue.str g.Tags)
  | "tags_raw" => some (GoValue.str g.TagsRAW)
  | _ => none

/-- The `filterProperty` switch of the `"device"` branch. -/
def devicePropValue (filterProperty : String) (dev : PrtgDeviceListItemStruct) :
    Option GoValue :=
  match filterProperty with
  | "active" => some (GoValue.bool dev.Active)
  | "active_raw" => some (GoValue.int dev.ActiveRAW)
  | "message" => some (GoValue.str (cleanMessageHTML dev.Message))
  | "message_raw" => some (GoValue.str dev.MessageRAW)
  | "priority" => some (GoValue.str dev.Priority)
  | "priority_raw" => some (GoValue.int dev.PriorityRAW)
  | "status" => some (GoValue.str dev.Status)
  | "status_raw" => some (GoValue.int dev.StatusRAW)
  | "tags" => some (GoValue.str dev.Tags)
  | "tags_raw" => some (GoValue.str dev.TagsRAW)
  | _ => none

/-- The `filterProperty` switch of the `"sensor"` branch; the raw
status/active/priority codes are converted to `float64` "for consistent
graphing". -/
def sensorPropValue (filterProperty : String) (s : PrtgSensorListItemStruct) :
    Option GoValue :=
  match filterProperty with
  | "status" => some (GoValue.str s.Status)
  | "status_raw" => some (GoValue.float (s.StatusRAW : Rat))
  | "active" => some (GoValue.bool s.Active)
  | "active_raw" => some (GoValue.float (s.ActiveRAW : Rat))
  | "priority" => some (GoValue.str s.Priority)
  | "priority_raw" => some (GoValue.float (s.PriorityRAW : Rat))
  | "message" => some (GoValue.str (cleanMessageHTML s.Message))
  | "message_raw" => some (GoValue.str s.MessageRAW)
  | "tags" => some (GoValue.str s.Tags)
  | "tags_raw" => some (GoValue.str s.TagsRAW)
  | _ => none

/-- The `"group"` loop of `handlePropertyQuery` (first revision): for
each fetched group whose name equals the queried one, parse its
datetime (parse failure skips the record) and extract the requested
property (`nil` skips); timestamps and values are appended in lockstep,
modelled as one list of pairs. -/
def collectGroupProps (parse : String → Except String DateParts)
    (filterProperty qmGroup : String) (gl : List PrtgGroupListItemStruct) :
    List (DateParts × GoValue) :=
  gl.filterMap (fun g =>
    if g.Group = qmGroup then
      match parse g.Datetime with
      | Except.error _ => none
      | Except.ok ts =>
        match groupPropValue filterProperty g with
        | none => none
        | some v => some (ts, v)
    else none)

/-- The `"device"` loop of `handlePropertyQuery` (first revision). -/
def collectDeviceProps (parse : String → Except String DateParts)
    (filterProperty qmDevice : String) (dl : List PrtgDeviceListItemStruct) :
    List (DateParts × GoValue) :=
  dl.filterMap (fun dev =>
    if dev.Device = qmDevice then
      match parse dev.Datetime with
      | Except.error _ => none
      | Except.ok ts =>
        match devicePropValue filterProperty dev with
        | none => none
        | some v => some (ts, v)
    else none)

/-- The `"sensor"` loop of `handlePropertyQuery` (first revision). -/
def collectSensorProps (parse : String → Except String DateParts)
    (filterProperty qmSensor : String) (sl : List PrtgSensorListItemStruct) :
    List (DateParts × GoValue) :=
  sl.filterMap (fun s =>
    if s.Sensor = qmSensor then
      match parse s.Datetime with
      | Except.error _ => none
      | Except.ok ts =>
        match sensorPropValue filterProperty s with
        | none => none
        | some v => some (ts, v)
    else none)

/-- Go `fmt.Sprintf "%v"` on the values the resolver produces.  Only
`bool` (and `nil`) can reach the branch that uses this; the rendering of
a `float64` under `%v` differs from `Rat`'s `toString` for non-integral
values, and arrays/objects are not rendered — neither occurs here and no
claim depends on it. -/
def sprintV : GoValue → String
  | GoValue.null => "<nil>"
  | GoValue.bool b => if b then "true" else "false"
  | GoValue.int n => toString n
  | GoValue.float q => toString q
  | GoValue.str s => s
  | GoValue.arr _ => ""
  | GoValue.obj _ => ""

/-- The `case float64, int` coercion of the frame builder: other dynamic
types in a float column keep the preallocated `0`. -/
def toFloatD : GoValue → Rat
  | GoValue.float q => q
  | GoValue.int n => (n : Rat)
  | _ => 0

/-- The value-column type switch of `handlePropertyQuery` (first
revision), dispatching on the first value's dynamic type.  In the
string branch Go's unchecked assertion `v.(string)` panics on a
non-string; the resolver only produces homogeneous columns, so the
modelled default `""` is never taken. -/
def buildValueField (values : List GoValue) : FrameValues :=
  match values.head? with
  | some (GoValue.float _) | some (GoValue.int _) => FrameValues.floats (values.map toFloatD)
  | some (GoValue.str _) =>
    FrameValues.strs (values.map (fun v =>
      match v with
      | GoValue.str s => s
      | _ => ""))
  | _ => FrameValues.strs (values.map sprintV)

/-- The tail of `handlePropertyQuery` (first revision): a frame is
emitted only when at least one `(timestamp, value)` pair was collected;
otherwise the response stays empty — no frames and no error. -/
def finishPropertyFrame (qm : queryModel) (filterProperty : String)
    (tv : List (DateParts × GoValue)) : DataResponse :=
  if 0 < tv.length then
    { frames := [{ times := tv.map Prod.fst,
                   values := buildValueField (tv.map Prod.snd),
                   displayName := qm.Property ++ " - " ++ qm.Sensor ++ " (" ++ filterProperty ++ ")" }],
      error := none }
  else { frames := [], error := none }

/-- Method `(*Datasource).handlePropertyQuery` (first revision).  The three
fetch results are parameters (outcomes of `d.api.GetGroups()` etc., the
error carrying `err.Error()`). -/
def handlePropertyQuery (parse : String → Except String DateParts) (qm : queryModel)
    (filterProperty : String)
    (groupsRes : Except String PrtgGroupListResponse)
    (devicesRes : Except String PrtgDevicesListResponse)
    (sensorsRes : Except String PrtgSensorsListResponse) : DataResponse :=
  if isValidPropertyType qm.Property = false then
    ErrDataResponse "Invalid property type"
  else
    match qm.Property with
    | "group" =>
      match groupsRes with
      | Except.error e => ErrDataResponse ("API request failed: " ++ e)
      | Except.ok resp =>
        finishPropertyFrame qm filterProperty
          (collectGroupProps parse filterProperty qm.Group resp.Groups)
    | "device" =>
      match devicesRes with
      | Except.error e => ErrDataResponse ("API request failed: " ++ e)
      | Except.ok resp =>
        finishPropertyFrame qm filterProperty
          (collectDeviceProps parse filterProperty qm.Device resp.Devices)
    | "sensor" =>
      match sensorsRes with
      | Except.error e => ErrDataResponse ("API request failed: " ++ e)
      | Except.ok resp =>
        finishPropertyFrame qm filterProperty
          (collectSensorProps parse filterProperty qm.Sensor resp.Sensors)
    | _ => finishPropertyFrame qm filterProperty []

/-- One iteration of the point-processing loop of the first revision's
metric query (query router lines 68–95): a point whose datetime fails to
parse is skipped entirely; a found channel value contributes `(t, v)`
when it is a `float64`, `(t, f)` when it is a string parsing as a float,
and is skipped otherwise; a missing channel contributes `(t, 0.0)`. -/
def processStep (parse : String → Except String DateParts) (channel : String)
    (acc : List DateParts × List Rat) (item : PrtgValues) : List DateParts × List Rat :=
  match parse item.Datetime with
  | Except.error _ => acc
  | Except.ok t =>
    match mapGet item.Value channel with
    | some v =>
      match v with
      | GoValue.float q => (acc.1 ++ [t], acc.2 ++ [q])
      | GoValue.str s =>
        match parseFloat s with
        | some f => (acc.1 ++ [t], acc.2 ++ [f])
        | none => acc
      | _ => acc
    | none => (acc.1 ++ [t], acc.2 ++ [(0 : Rat)])

/-- The point-processing loop of the first revision's metric query. -/
def processHistData (parse : String → Except String DateParts) (channel : String)
    (histData : List PrtgValues) : List DateParts × List Rat :=
  histData.foldl (processStep parse channel) ([], [])

/-- The metric display name (query router lines 97–108): optional
group/device/sensor parts followed by the channel, joined by `" - "`. -/
def metricDisplayName (qm : queryModel) : String :=
  let parts :=
    (if qm.IncludeGroupName && qm.Group ≠ "" then [qm.Group] else []) ++
    (if qm.IncludeDeviceName && qm.Device ≠ "" then [qm.Device] else []) ++
    (if qm.IncludeSensorName && qm.Sensor ≠ "" then [qm.Sensor] else []) ++
    [qm.Channel]
  String.intercalate " - " parts

/-- The `"raw"` branch's filter-property computation (query router lines
125–128, written inline there): append `"_raw"` unless already
present. -/
def resolveRawProperty (filterProperty : String) : String :=
  if hasSuffix filterProperty "_raw" then filterProperty
  else filterProperty ++ "_raw"

/-- Method `(*Datasource).query` (first revision): dispatch on `queryType`.
`histRes` is the outcome of `d.api.GetHistoricalData` for the metric
branch (error text `err.Error()`). -/
def query (parse : String → Except String DateParts) (qm : queryModel)
    (histRes : Except String PrtgHistoricalDataResponse)
    (groupsRes : Except String PrtgGroupListResponse)
    (devicesRes : Except String PrtgDevicesListResponse)
    (sensorsRes : Except String PrtgSensorsListResponse) : DataResponse :=
  match qm.QueryType with
  | "metrics" =>
    match histRes with
    | Except.error e => ErrDataResponse ("API request failed: " ++ e)
    | Except.ok historicalData =>
      let tv := processHistData parse qm.Channel historicalData.HistData
      { frames := [{ times := tv.1,
                     values := FrameValues.floats tv.2,
                     displayName := metricDisplayName qm }],
        error := none }
  | "text" =>
    handlePropertyQuery parse qm qm.FilterProperty groupsRes devicesRes sensorsRes
  | "raw" =>
    handlePropertyQuery parse qm (resolveRawProperty qm.FilterProperty)
      groupsRes devicesRes sensorsRes
  | other => ErrDataResponse ("Unknown query type: " ++ other)

end RouterV1

/-! ## Query router, second revision (`(*PRTGDatasource)` variants) -/

namespace RouterV2

/-- The free function `isValidPropertyType` (second revision): a
three-entry map, absent keys read as `false`. -/
def isValidPropertyType (propertyType : String) : Bool :=
  propertyType == "group" || propertyType == "device" || propertyType == "sensor"

/-- Method `(*PRTGDatasource).getPropertyValue` on a group record.  The Go
function reads fields by reflection (`FieldByName`); on these structs
every looked-up field exists, so the per-struct specialization is
exact.  `strconv.FormatBool` and `strconv.FormatInt(_, 10)` are
`"true"`/`"false"` and decimal rendering. -/
def getPropertyValueGroup (property : String) (g : PrtgGroupListItemStruct) : String :=
  match property with
  | "status" => g.Status
  | "message" => g.Message
  | "active" => if g.Active then "true" else "false"
  | "priority" => toString g.PriorityRAW
  | "tags" => g.Tags
  | _ => "Unknown"

/-- Method `getPropertyValue` on a device record. -/
def getPropertyValueDevice (property : String) (dev : PrtgDeviceListItemStruct) : String :=
  match property with
  | "status" => dev.Status
  | "message" => dev.Message
  | "active" => if dev.Active then "true" else "false"
  | "priority" => toString dev.PriorityRAW
  | "tags" => dev.Tags
  | _ => "Unknown"

/-- Method `getPropertyValue` on a sensor record. -/
def getPropertyValueSensor (property : String) (s : PrtgSensorListItemStruct) : String :=
  match property with
  | "status" => s.Status
  | "message" => s.Message
  | "active" => if s.Active then "true" else "false"
  | "priority" => toString s.PriorityRAW
  | "tags" => s.Tags
  | _ => "Unknown"

/-- Method `(*PRTGDatasource).createFields`: one single-row time field and one
single-row string value field whose display name joins the nonempty
name parts and the filter property with `" - "`. -/
def createFields (timestamp : DateParts) (filterProperty value group device sensor : String) :
    Frame :=
  let nameParts :=
    (if group ≠ "" then [group] else []) ++
    (if device ≠ "" then [device] else []) ++
    (if sensor ≠ "" then [sensor] else []) ++
    [filterProperty]
  { times := [timestamp],
    values := FrameValues.strs [value],
    displayName := String.intercalate " - " nameParts }

/-- Method `(*PRTGDatasource).handlePropertyQuery` (second revision): an empty
filter property defaults to `"status"`, the entity is looked up by exact
name (`break` on the first hit), and a missing entity is an explicit
error ("Gruppe/Gerät/Sensor nicht gefunden"). -/
def handlePropertyQuery (parse : String → Except String DateParts) (qm : queryModel)
    (filterProperty0 : String)
    (groupsRes : Except String PrtgGroupListResponse)
    (devicesRes : Except String PrtgDevicesListResponse)
    (sensorsRes : Except String PrtgSensorsListResponse) : DataResponse :=
  if isValidPropertyType qm.Property = false then
    ErrDataResponse "Ungültiger Eigenschaftstyp"
  else
    let filterProperty := if filterProperty0 = "" then "status" else filterProperty0
    match qm.Property with
    | "group" =>
      match groupsRes with
      | Except.error e => ErrDataResponse ("API Anfrage fehlgeschlagen: " ++ e)
      | Except.ok resp =>
        match resp.Groups.find? (fun g => g.Group == qm.Group) with
        | none => ErrDataResponse "Gruppe nicht gefunden"
        | some groupInfo =>
          match parse groupInfo.Datetime with
          | Except.error e => ErrDataResponse ("Datum parsen fehlgeschlagen: " ++ e)
          | Except.ok timestamp =>
            { frames := [createFields timestamp filterProperty
                          (getPropertyValueGroup filterProperty groupInfo)
                          groupInfo.Group "" ""],
              error := none }
    | "device" =>
      match devicesRes with
      | Except.error e => ErrDataResponse ("API Anfrage fehlgeschlagen: " ++ e)
      | Except.ok resp =>
        match resp.Devices.find? (fun dev => dev.Device == qm.Device) with
        | none => ErrDataResponse "Gerät nicht gefunden"
        | some deviceInfo =>
          match parse deviceInfo.Datetime with
          | Except.error e => ErrDataResponse ("Datum parsen fehlgeschlagen: " ++ e)
          | Except.ok timestamp =>
            { frames := [createFields timestamp filterProperty
                          (getPropertyValueDevice filterProperty deviceInfo)
                          deviceInfo.Group deviceInfo.Device ""],
              error := none }
    | "sensor" =>
      match sensorsRes with
      | Except.error e => ErrDataResponse ("API Anfrage fehlgeschlagen: " ++ e)
      | Except.ok resp =>
        match resp.Sensors.find? (fun s => s.Sensor == qm.Sensor) with
        | none => ErrDataResponse "Sensor nicht gefunden"
        | some sensorInfo =>
          match parse sensorInfo.Datetime with
          | Except.error e => ErrDataResponse ("Datum parsen fehlgeschlagen: " ++ e)
          | Except.ok timestamp =>
            { frames := [createFields timestamp filterProperty
                          (getPropertyValueSensor filterProperty sensorInfo)
                          sensorInfo.Group sensorInfo.Device sensorInfo.Sensor],
              error := none }
    | _ => ErrDataResponse "Unbekannter Eigenschaftstyp"

end RouterV2

/-! ## The spec-modelled datetime parser -/

/-- Strict `DD.MM.YYYY HH:mm:ss`: all six fields nonempty digit runs. -/
def tryGermanFormat (s : String) : Option DateParts :=
  match goSplit s ' ' with
  | [datePart, timePart] =>
    match goSplit datePart '.' with
    | [dd, mm, yyyy] =>
      match goSplit timePart ':' with
      | [hh, mi, ss] =>
        match digitsToNat dd.data, digitsToNat mm.data, digitsToNat yyyy.data,
              digitsToNat hh.data, digitsToNat mi.data, digitsToNat ss.data with
        | some d, some m, some y, some h, some mnt, some sec =>
          some ⟨y, m, d, h, mnt, sec⟩
        | _, _, _, _, _, _ => none
      | _ => none
    | _ => none
  | _ => none

/-- Strict `YYYY-MM-DDTHH:mm:ssZ` (the standard timestamp shape the
repository's tests feed the router). -/
def tryStandardFormat (s : String) : Option DateParts :=
  match goSplit s 'T' with
  | [datePart, timePartZ] =>
    match goSplit datePart '-' with
    | [yyyy, mm, dd] =>
      match timePartZ.data.reverse with
      | 'Z' :: revTime =>
        match goSplit (String.mk revTime.reverse) ':' with
        | [hh, mi, ss] =>
          match digitsToNat yyyy.data, digitsToNat mm.data, digitsToNat dd.data,
                digitsToNat hh.data, digitsToNat mi.data, digitsToNat ss.data with
          | some y, some m, some d, some h, some mnt, some sec =>
            some ⟨y, m, d, h, mnt, sec⟩
          | _, _, _, _, _, _ => none
        | _ => none
      | _ => none
    | _ => none
  | _ => none

/-- Modelled from the spec: the three-result `parsePRTGDateTime` the
first-revision query router calls is not among the source files (only
its call sites are).  Per the spec (§4.4), datetime parsing tries the
vendor encoding `DD.MM.YYYY HH:mm:ss` and then a standard timestamp
format in order, first success wins, and exhausting all formats is a
parse error carrying the original string.  The discarded middle result
is not modelled. -/
def specParsePRTGDateTime (s : String) : Except String DateParts :=
  match tryGermanFormat s with
  | some t => Except.ok t
  | none =>
    match tryStandardFormat s with
    | some t => Except.ok t
    | none => Except.error ("invalid datetime format: " ++ s)

example : specParsePRTGDateTime "14.02.2025 13:49:00" = Except.ok ⟨2025, 2, 14, 13, 49, 0⟩ := by rfl
example : specParsePRTGDateTime "2025-02-15T12:00:00Z" = Except.ok ⟨2025, 2, 15, 12, 0, 0⟩ := by rfl

/-! ## Shared helper lemmas -/

theorem hasSuffix_append (s t : String) : hasSuffix (s ++ t) t = true := by
  unfold hasSuffix
  rw [String.data_append]
  simp [List.isSuffixOf]

theorem processStep_length (parse : String → Except String DateParts) (channel : String)
    (acc : List DateParts × List Rat) (item : PrtgValues)
    (h : acc.1.length = acc.2.length) :
    (RouterV1.processStep parse channel acc item).1.length =
      (RouterV1.processStep parse channel acc item).2.length := by
  unfold RouterV1.processStep
  split
  · exact h
  · split
    · split
      · simp [h]
      · split
        · simp [h]
        · exact h
      · exact h
    · simp [h]

theorem processHistData_length (parse : String → Except String DateParts) (channel : String)
    (histData : List PrtgValues) :
    (RouterV1.processHistData parse channel histData).1.length =
      (RouterV1.processHistData parse channel histData).2.length := by
  unfold RouterV1.processHistData
  suffices hgen : ∀ acc : List DateParts × List Rat, acc.1.length = acc.2.length →
      (histData.foldl (RouterV1.processStep parse channel) acc).1.length =
        (histData.foldl (RouterV1.processStep parse channel) acc).2.length by
    exact hgen ([], []) rfl
  induction histData with
  | nil => intro acc h; exact h
  | cons item rest ih =>
    intro acc h
    simp only [List.foldl_cons]
    exact ih _ (processStep_length parse channel acc item h)

/-! ## Claims about `GetHistoricalData` validation -/

/-- C7: for every pair of timestamps and every transport outcome, calling
`GetHistoricalData` (either revision) with an empty object identifier
returns the missing-sensor-ID validation error and issues no HTTP
request. -/
theorem getHistoricalData_emptyId_no_request :
    ∀ (startDate endDate : Int) (transport : HistFetchOutcome),
      ApiV1.GetHistoricalData "" startDate endDate transport =
        (Except.error ApiError.missingSensorId, []) ∧
      ApiV2.GetHistoricalData "" startDate endDate transport =
        (Except.error ApiError.missingSensorId, []) := by
  intro startDate endDate transport
  constructor
  · simp [ApiV1.GetHistoricalData]
  · simp [ApiV2.GetHistoricalData]

/-- C6: for every non-empty object identifier and timestamps with
`from ≥ to`, `GetHistoricalData` (either revision) returns the
invalid-time-range validation error and issues no HTTP request. -/
theorem getHistoricalData_invalidRange_no_request
    (sensorID : String) (startDate endDate : Int) (transport : HistFetchOutcome)
    (hid : sensorID ≠ "") (hge : endDate ≤ startDate) :
    ApiV1.GetHistoricalData sensorID startDate endDate transport =
      (Except.error ApiError.invalidTimeRange, []) ∧
    ApiV2.GetHistoricalData sensorID startDate endDate transport =
      (Except.error ApiError.invalidTimeRange, []) := by
  constructor
  · have hnlt : ¬ (startDate < endDate) := by omega
    simp [ApiV1.GetHistoricalData, hid, hnlt]
  · have hnp : hoursOf startDate endDate ≤ 0 := by
      unfold hoursOf
      apply div_nonpos_of_nonpos_of_nonneg
      · have : (endDate : Rat) ≤ (startDate : Rat) := by exact_mod_cast hge
        push_cast
        linarith
      · norm_num
    simp [ApiV2.GetHistoricalData, hid, hnp]

/-- Witness for C6 at `sensorID = "1234"`, `from = to = 5`. -/
theorem getHistoricalData_invalidRange_no_request_witness :
    ApiV1.GetHistoricalData "1234" 5 5 (HistFetchOutcome.ok {}) =
      (Except.error ApiError.invalidTimeRange, []) ∧
    ApiV2.GetHistoricalData "1234" 5 5 (HistFetchOutcome.ok {}) =
      (Except.error ApiError.invalidTimeRange, []) :=
  getHistoricalData_invalidRange_no_request "1234" 5 5 (HistFetchOutcome.ok {})
    (by decide) (by omega)

/-- C5: when the request and deserialization succeed but the `histdata`
list is empty, `GetHistoricalData` (either revision) returns the
no-data-found error; and (last two conjuncts) neither revision ever
returns a successful result whose point list is empty. -/
theorem getHistoricalData_empty_is_error
    (sensorID : String) (startDate endDate : Int) (resp : PrtgHistoricalDataResponse)
    (hid : sensorID ≠ "") (hlt : startDate < endDate) (hemp : resp.HistData = []) :
    (ApiV1.GetHistoricalData sensorID startDate endDate (HistFetchOutcome.ok resp)).1 =
      Except.error ApiError.noDataFound ∧
    (ApiV2.GetHistoricalData sensorID startDate endDate (HistFetchOutcome.ok resp)).1 =
      Except.error ApiError.noDataFound ∧
    (∀ (id2 : String) (s2 e2 : Int) (tr : HistFetchOutcome) (r : PrtgHistoricalDataResponse),
        (ApiV1.GetHistoricalData id2 s2 e2 tr).1 = Except.ok r → r.HistData ≠ []) ∧
    (∀ (id2 : String) (s2 e2 : Int) (tr : HistFetchOutcome) (r : PrtgHistoricalDataResponse),
        (ApiV2.GetHistoricalData id2 s2 e2 tr).1 = Except.ok r → r.HistData ≠ []) := by
  have hpos : ¬ (hoursOf startDate endDate ≤ 0) := by
    unfold hoursOf
    push_neg
    have hc : (0 : Rat) < ((endDate - startDate : Int) : Rat) := by
      exact_mod_cast (by omega : (0 : Int) < endDate - startDate)
    exact div_pos hc (by norm_num)
  refine ⟨?_, ?_, ?_, ?_⟩
  · simp [ApiV1.GetHistoricalData, hid, hlt, hemp]
  · simp [ApiV2.GetHistoricalData, hid, hpos, hemp]
  · intro id2 s2 e2 tr r h hcon
    unfold ApiV1.GetHistoricalData at h
    cases tr <;> (repeat' split at h) <;> simp_all
  · intro id2 s2 e2 tr r h hcon
    unfold ApiV2.GetHistoricalData at h
    by_cases h1 : id2 = ""
    · simp [h1] at h
    · by_cases h2 : hoursOf s2 e2 ≤ 0
      · simp [h1, h2] at h
      · cases tr with
        | httpError m => simp [h1, h2] at h
        | parseError m => simp [h1, h2] at h
        | ok response =>
          by_cases h3 : response.HistData.length = 0
          · simp [h1, h2, h3] at h
          · simp [h1, h2, h3] at h
            exact h3 (by simp [h, hcon])

/-- Witness for C5 at `sensorID = "1234"`, range `0 < 3600000`, and a
successfully-parsed response with an empty `histdata`. -/
theorem getHistoricalData_empty_is_error_witness :
    (ApiV1.GetHistoricalData "1234" 0 3600000 (HistFetchOutcome.ok {})).1 =
      Except.error ApiError.noDataFound ∧
    (ApiV2.GetHistoricalData "1234" 0 3600000 (HistFetchOutcome.ok {})).1 =
      Except.error ApiError.noDataFound :=
  ⟨(getHistoricalData_empty_is_error "1234" 0 3600000 {} (by decide) (by omega) rfl).1,
   (getHistoricalData_empty_is_error "1234" 0 3600000 {} (by decide) (by omega) rfl).2.1⟩

/-! ## The averaging tables -/

theorem avgSecondsV1_mono {a b : Rat} (hab : a ≤ b) :
    ApiV1.avgSeconds a ≤ ApiV1.avgSeconds b := by
  unfold ApiV1.avgSeconds
  split_ifs <;> first | decide | (exfalso; linarith)

set_option maxHeartbeats 1000000 in
theorem avgSecondsV2_mono {a b : Rat} (hab : a ≤ b) :
    ApiV2.avgSeconds a ≤ ApiV2.avgSeconds b := by
  unfold ApiV2.avgSeconds
  split_ifs <;> first | decide | (exfalso; linarith)

theorem selectAvgV1_eq (h : Rat) : ApiV1.selectAvg h = toString (ApiV1.avgSeconds h) := by
  unfold ApiV1.selectAvg ApiV1.avgSeconds
  split_ifs <;> rfl

theorem selectAvgV2_eq (h : Rat) : ApiV2.selectAvg h = toString (ApiV2.avgSeconds h) := by
  unfold ApiV2.selectAvg ApiV2.avgSeconds
  split_ifs <;> rfl

theorem hoursOf_mono {f1 t1 f2 t2 : Int} (h : t1 - f1 ≤ t2 - f2) :
    hoursOf f1 t1 ≤ hoursOf f2 t2 := by
  unfold hoursOf
  have hc : ((t1 - f1 : Int) : Rat) ≤ ((t2 - f2 : Int) : Rat) := by exact_mod_cast h
  gcongr

/-- C4: the averaging value in seconds chosen by `GetHistoricalData`
(both revisions' tables, here `avgSeconds`, rendered as the request's
`avg` string by `selectAvg`) is a monotone non-decreasing step function
of the requested span: `0` (raw) for short spans, up to `86400` (daily)
for the longest, and monotone in `to - from` for every pair of time
ranges. -/
theorem averaging_selection_monotone (h1 h2 : Rat) (hle : h1 ≤ h2) :
    ApiV1.avgSeconds h1 ≤ ApiV1.avgSeconds h2 ∧
    ApiV2.avgSeconds h1 ≤ ApiV2.avgSeconds h2 ∧
    (∀ h : Rat, ApiV1.selectAvg h = toString (ApiV1.avgSeconds h)) ∧
    (∀ h : Rat, ApiV2.selectAvg h = toString (ApiV2.avgSeconds h)) ∧
    (∀ h : Rat, h ≤ 12 → ApiV1.avgSeconds h = 0) ∧
    (∀ h : Rat, 745 < h → ApiV1.avgSeconds h = 86400) ∧
    (∀ h : Rat, h ≤ 24 → ApiV2.avgSeconds h = 0) ∧
    (∀ h : Rat, 2160 < h → ApiV2.avgSeconds h = 86400) ∧
    (∀ f1 t1 f2 t2 : Int, t1 - f1 ≤ t2 - f2 →
        ApiV1.avgSeconds (hoursOf f1 t1) ≤ ApiV1.avgSeconds (hoursOf f2 t2)) ∧
    (∀ f1 t1 f2 t2 : Int, t1 - f1 ≤ t2 - f2 →
        ApiV2.avgSeconds (hoursOf f1 t1) ≤ ApiV2.avgSeconds (hoursOf f2 t2)) := by
  refine ⟨avgSecondsV1_mono hle, avgSecondsV2_mono hle, selectAvgV1_eq, selectAvgV2_eq,
    ?_, ?_, ?_, ?_, ?_, ?_⟩
  · intro h hh
    unfold ApiV1.avgSeconds
    split_ifs <;> first | rfl | (exfalso; linarith)
  · intro h hh
    unfold ApiV1.avgSeconds
    split_ifs <;> first | rfl | (exfalso; linarith)
  · intro h hh
    unfold ApiV2.avgSeconds
    split_ifs <;> first | rfl | (exfalso; linarith)
  · intro h hh
    unfold ApiV2.avgSeconds
    split_ifs <;> first | rfl | (exfalso; linarith)
  · intro f1 t1 f2 t2 hspan
    exact avgSecondsV1_mono (hoursOf_mono hspan)
  · intro f1 t1 f2 t2 hspan
    exact avgSecondsV2_mono (hoursOf_mono hspan)

/-- Witness for C4 at spans of 1 and 2 hours. -/
theorem averaging_selection_monotone_witness :
    ApiV1.avgSeconds 1 ≤ ApiV1.avgSeconds 2 ∧
    ApiV2.avgSeconds 1 ≤ ApiV2.avgSeconds 2 :=
  ⟨(averaging_selection_monotone 1 2 (by norm_num)).1,
   (averaging_selection_monotone 1 2 (by norm_num)).2.1⟩

/-! ## The raw-suffix resolution -/

/-- C8: a Raw query resolves the filter property through
`resolveRawProperty`, whose result always ends in `"_raw"`; it appends
the suffix exactly when absent (so it never double-suffixes: it is
idempotent), and in particular `"status" ↦ "status_raw"` and
`"status_raw" ↦ "status_raw"`. -/
theorem raw_query_suffix (parse : String → Except String DateParts) (qm : queryModel)
    (histRes : Except String PrtgHistoricalDataResponse)
    (groupsRes : Except String PrtgGroupListResponse)
    (devicesRes : Except String PrtgDevicesListResponse)
    (sensorsRes : Except String PrtgSensorsListResponse)
    (hraw : qm.QueryType = "raw") :
    RouterV1.query parse qm histRes groupsRes devicesRes sensorsRes =
      RouterV1.handlePropertyQuery parse qm
        (RouterV1.resolveRawProperty qm.FilterProperty) groupsRes devicesRes sensorsRes ∧
    (∀ fp : String, hasSuffix (RouterV1.resolveRawProperty fp) "_raw" = true) ∧
    (∀ fp : String, ¬ hasSuffix fp "_raw" = true →
        RouterV1.resolveRawProperty fp = fp ++ "_raw") ∧
    (∀ fp : String, hasSuffix fp "_raw" = true → RouterV1.resolveRawProperty fp = fp) ∧
    (∀ fp : String,
        RouterV1.resolveRawProperty (RouterV1.resolveRawProperty fp) =
          RouterV1.resolveRawProperty fp) ∧
    RouterV1.resolveRawProperty "status" = "status_raw" ∧
    RouterV1.resolveRawProperty "status_raw" = "status_raw" := by
  have hsuf : ∀ fp : String, hasSuffix (RouterV1.resolveRawProperty fp) "_raw" = true := by
    intro fp
    unfold RouterV1.resolveRawProperty
    by_cases hfp : hasSuffix fp "_raw" = true
    · simpa [hfp]
    · simp only [Bool.not_eq_true] at hfp
      simp [hfp, hasSuffix_append]
  refine ⟨?_, hsuf, ?_, ?_, ?_, by decide, by decide⟩
  · unfold RouterV1.query
    rw [hraw]
    rfl
  · intro fp hfp
    simp only [Bool.not_eq_true] at hfp
    simp [RouterV1.resolveRawProperty, hfp]
  · intro fp hfp
    simp [RouterV1.resolveRawProperty, hfp]
  · intro fp
    unfold RouterV1.resolveRawProperty
    by_cases hfp : hasSuffix fp "_raw" = true
    · simp [hfp]
    · simp only [Bool.not_eq_true] at hfp
      simp only [hfp, Bool.false_eq_true, if_false]
      simp [hasSuffix_append]

/-- Witness for C8 at a Raw query with `filterProperty = "status"`. -/
theorem raw_query_suffix_witness :
    RouterV1.query specParsePRTGDateTime { QueryType := "raw", FilterProperty := "status" }
        (Except.ok {}) (Except.ok {}) (Except.ok {}) (Except.ok {}) =
      RouterV1.handlePropertyQuery specParsePRTGDateTime
        { QueryType := "raw", FilterProperty := "status" }
        (RouterV1.resolveRawProperty "status") (Except.ok {}) (Except.ok {}) (Except.ok {}) ∧
    RouterV1.resolveRawProperty "status" = "status_raw" :=
  ⟨(raw_query_suffix specParsePRTGDateTime { QueryType := "raw", FilterProperty := "status" }
      (Except.ok {}) (Except.ok {}) (Except.ok {}) (Except.ok {}) rfl).1,
   (raw_query_suffix specParsePRTGDateTime { QueryType := "raw", FilterProperty := "status" }
      (Except.ok {}) (Except.ok {}) (Except.ok {}) (Except.ok {}) rfl).2.2.2.2.2.1⟩

/-! ## Frame column lengths -/

theorem queryMetrics_eq (parse : String → Except String DateParts) (qm : queryModel)
    (histRes : Except String PrtgHistoricalDataResponse)
    (groupsRes : Except String PrtgGroupListResponse)
    (devicesRes : Except String PrtgDevicesListResponse)
    (sensorsRes : Except String PrtgSensorsListResponse)
    (hm : qm.QueryType = "metrics") :
    RouterV1.query parse qm histRes groupsRes devicesRes sensorsRes =
      match histRes with
      | Except.error e => ErrDataResponse ("API request failed: " ++ e)
      | Except.ok historicalData =>
        let tv := RouterV1.processHistData parse qm.Channel historicalData.HistData
        { frames := [{ times := tv.1,
                       values := FrameValues.floats tv.2,
                       displayName := RouterV1.metricDisplayName qm }],
          error := none } := by
  unfold RouterV1.query
  rw [hm]
  rfl

/-- C9: every frame a Metric query emits has time and value columns of
equal length, whatever the datetime parser, the input points, and their
channel values do (first-revision router); and the second revision's
datasource builds its two columns with equal (preallocated) length for
every input as well. -/
theorem metric_frame_columns_equal (parse : String → Except String DateParts)
    (qm : queryModel) (histRes : Except String PrtgHistoricalDataResponse)
    (groupsRes : Except String PrtgGroupListResponse)
    (devicesRes : Except String PrtgDevicesListResponse)
    (sensorsRes : Except String PrtgSensorsListResponse) (f : Frame)
    (hm : qm.QueryType = "metrics")
    (hf : f ∈ (RouterV1.query parse qm histRes groupsRes devicesRes sensorsRes).frames) :
    f.times.length = f.values.length ∧
    (∀ (channel : String) (histData : List PrtgValues),
        (DatasourceV2.processHistData histData channel).1.length =
          (DatasourceV2.processHistData histData channel).2.length) := by
  constructor
  · rw [queryMetrics_eq parse qm histRes groupsRes devicesRes sensorsRes hm] at hf
    cases histRes with
    | error e => simp [ErrDataResponse] at hf
    | ok hd =>
      simp only [List.mem_singleton] at hf
      subst hf
      simp [FrameValues.length, processHistData_length]
  · intro channel histData
    simp [DatasourceV2.processHistData, FrameValues.length]

/-- Witness for C9 at a metric query over an empty point list. -/
theorem metric_frame_columns_equal_witness :
    ({ QueryType := "metrics" } : queryModel).QueryType = "metrics" ∧
    ({ times := [], values := FrameValues.floats [], displayName := "" } : Frame).times.length =
      ({ times := [], values := FrameValues.floats [], displayName := "" } : Frame).values.length :=
  ⟨rfl,
   (metric_frame_columns_equal specParsePRTGDateTime { QueryType := "metrics" }
      (Except.ok {}) (Except.ok {}) (Except.ok {}) (Except.ok {})
      { times := [], values := FrameValues.floats [], displayName := "" }
      rfl (List.Mem.head _)).1⟩

/-! ## Channel lookup: `extractValue` vs. the metric path -/

/-- C1 (amended): `extractValue` does look a channel up first by exact
match and then case-insensitively — on a one-entry map any key equal to
the channel up to case is found — but the Metric query path does not use
it: for every datetime parser, a point whose only map key differs from
the requested channel (even just by case) is zero-filled by the metric
loop, not matched.  The last conjunct is the exact-match half of
`extractValue`. -/
theorem extractValue_vs_metric_lookup (parse : String → Except String DateParts)
    (channel k : String) (v : Rat) (d : String) (t : DateParts)
    (hch : channel ≠ "") (hne : k ≠ channel)
    (hlow : goToLower k = goToLower channel)
    (hp : parse d = Except.ok t) :
    DatasourceV1.extractValue [(k, GoValue.float v)] channel = (v, true) ∧
    RouterV1.processHistData parse channel
        [{ Datetime := d, Value := [(k, GoValue.float v)] }] = ([t], [0]) ∧
    (∀ (m : List (String × GoValue)) (q : Rat),
        mapGet m channel = some (GoValue.float q) →
        DatasourceV1.extractValue m channel = (q, true)) := by
  refine ⟨?_, ?_, ?_⟩
  · unfold DatasourceV1.extractValue
    rw [if_neg hch]
    simp [mapGet, hne, DatasourceV1.extractValueFallback, hlow]
  · simp [RouterV1.processHistData, RouterV1.processStep, hp, mapGet, hne]
  · intro m q hm
    unfold DatasourceV1.extractValue
    rw [if_neg hch, hm]

/-- Counterexample to C1 as stated: on the Metric query path, requesting
channel `"Percent"` against a point keyed `"percent"` (value `5`) does
not match — the point is zero-filled (`values = [0]`, not `[5]`) — even
though `extractValue`, which has no callers on that path, would have
found it case-insensitively. -/
theorem metric_lookup_not_case_insensitive :
    RouterV1.processHistData specParsePRTGDateTime "Percent"
        [{ Datetime := "14.02.2025 13:49:00", Value := [("percent", GoValue.float 5)] }] =
      ([⟨2025, 2, 14, 13, 49, 0⟩], [0]) ∧
    DatasourceV1.extractValue [("percent", GoValue.float 5)] "Percent" = (5, true) := by
  constructor
  · rfl
  · rfl

/-- Witness for C1 (amended) at channel `"Percent"`, key `"percent"`. -/
theorem extractValue_vs_metric_lookup_witness :
    DatasourceV1.extractValue [("percent", GoValue.float 5)] "Percent" = (5, true) ∧
    RouterV1.processHistData specParsePRTGDateTime "Percent"
        [{ Datetime := "15.02.2025 12:00:00", Value := [("percent", GoValue.float 5)] }] =
      ([⟨2025, 2, 15, 12, 0, 0⟩], [0]) :=
  let h := extractValue_vs_metric_lookup specParsePRTGDateTime "Percent" "percent" 5
    "15.02.2025 12:00:00" ⟨2025, 2, 15, 12, 0, 0⟩ (by decide) (by decide) (by decide) (by rfl)
  ⟨h.1, h.2.1⟩

/-! ## Datetime parsing: one vendor format only -/

/-- C2 (amended): both in-source revisions of `parsePRTGDateTime` accept
exactly the one vendor shape `DD.MM.YYYY HH:mm:ss` (two space-separated
parts, a three-field dotted date, and — in the first revision — a
three-field colon time); no second format is attempted.  A string whose
space-split does not have exactly two parts fails with an error carrying
the whole original string; a two-part string whose date part is not
three dotted fields fails with an error carrying the date part. -/
theorem parsePRTGDateTime_single_format (s dp tp d1 d2 d3 t1 t2 t3 : String)
    (hs : goSplit s ' ' = [dp, tp])
    (hd : goSplit dp '.' = [d1, d2, d3])
    (ht : goSplit tp ':' = [t1, t2, t3]) :
    DatasourceV1.parsePRTGDateTime s =
      Except.ok ⟨atoi d3, atoi d2, atoi d1, atoi t1, atoi t2, atoi t3⟩ ∧
    DatasourceV2.parsePRTGDateTime s =
      Except.ok (d3 ++ "-" ++ d2 ++ "-" ++ d1 ++ " " ++ tp) ∧
    (∀ s2 : String, (goSplit s2 ' ').length ≠ 2 →
        DatasourceV1.parsePRTGDateTime s2 =
          Except.error ("invalid datetime format: " ++ s2) ∧
        DatasourceV2.parsePRTGDateTime s2 =
          Except.error ("invalid datetime format: " ++ s2)) ∧
    (∀ s2 dp2 tp2 : String, goSplit s2 ' ' = [dp2, tp2] →
        (goSplit dp2 '.').length ≠ 3 →
        DatasourceV1.parsePRTGDateTime s2 =
          Except.error ("invalid date format: " ++ dp2)) := by
  refine ⟨?_, ?_, ?_, ?_⟩
  · have hred1 : DatasourceV1.parsePRTGDateTime s =
        (match goSplit dp '.' with
         | [dd, mm, yyyy] =>
           (match goSplit tp ':' with
            | [hh, mi, ss] =>
              Except.ok ⟨atoi yyyy, atoi mm, atoi dd, atoi hh, atoi mi, atoi ss⟩
            | _ => Except.error ("invalid time format: " ++ tp))
         | _ => Except.error ("invalid date format: " ++ dp)) := by
      unfold DatasourceV1.parsePRTGDateTime
      rw [hs]
    rw [hred1, hd, ht]
  · have hred2 : DatasourceV2.parsePRTGDateTime s =
        (match goSplit dp '.' with
         | [dd, mm, yyyy] => Except.ok (yyyy ++ "-" ++ mm ++ "-" ++ dd ++ " " ++ tp)
         | _ => Except.error ("invalid date format: " ++ dp)) := by
      unfold DatasourceV2.parsePRTGDateTime
      rw [hs]
    rw [hred2, hd]
  · intro s2 h2
    unfold DatasourceV1.parsePRTGDateTime DatasourceV2.parsePRTGDateTime
    rcases hg : goSplit s2 ' ' with _ | ⟨a, _ | ⟨b, _ | ⟨c, rest⟩⟩⟩
    · exact ⟨rfl, rfl⟩
    · exact ⟨rfl, rfl⟩
    · rw [hg] at h2
      exact absurd rfl h2
    · exact ⟨rfl, rfl⟩
  · intro s2 dp2 tp2 hsp hlen
    have hred : DatasourceV1.parsePRTGDateTime s2 =
        (match goSplit dp2 '.' with
         | [dd, mm, yyyy] =>
           (match goSplit tp2 ':' with
            | [hh, mi, ss] =>
              Except.ok ⟨atoi yyyy, atoi mm, atoi dd, atoi hh, atoi mi, atoi ss⟩
            | _ => Except.error ("invalid time format: " ++ tp2))
         | _ => Except.error ("invalid date format: " ++ dp2)) := by
      unfold DatasourceV1.parsePRTGDateTime
      rw [hsp]
    rw [hred]
    rcases hgd : goSplit dp2 '.' with _ | ⟨a, _ | ⟨b, _ | ⟨c, _ | ⟨e, rest⟩⟩⟩⟩
    · rfl
    · rfl
    · rfl
    · rw [hgd] at hlen
      exact absurd rfl hlen
    · rfl

/-- Counterexample to C2 as stated: a standard timestamp is rejected by
both in-source revisions of `parsePRTGDateTime`; no second format is
tried. -/
theorem parsePRTGDateTime_standard_format_fails :
    DatasourceV1.parsePRTGDateTime "2025-02-15T12:00:00Z" =
      Except.error "invalid datetime format: 2025-02-15T12:00:00Z" ∧
    DatasourceV2.parsePRTGDateTime "2025-02-15T12:00:00Z" =
      Except.error "invalid datetime format: 2025-02-15T12:00:00Z" :=
  ⟨rfl, rfl⟩

/-- Witness for C2 (amended) at `"15.02.2025 12:00:00"`. -/
theorem parsePRTGDateTime_single_format_witness :
    DatasourceV1.parsePRTGDateTime "15.02.2025 12:00:00" =
      Except.ok ⟨atoi "2025", atoi "02", atoi "15", atoi "12", atoi "00", atoi "00"⟩ :=
  (parsePRTGDateTime_single_format "15.02.2025 12:00:00" "15.02.2025" "12:00:00"
    "15" "02" "2025" "12" "00" "00" (by decide) (by decide) (by decide)).1

/-! ## Property resolution for unknown entity names -/

theorem collectGroupProps_eq_nil (parse : String → Except String DateParts)
    (fp G : String) (gl : List PrtgGroupListItemStruct)
    (h : ∀ g ∈ gl, g.Group ≠ G) :
    RouterV1.collectGroupProps parse fp G gl = [] := by
  unfold RouterV1.collectGroupProps
  rw [List.filterMap_eq_nil]
  intro g hgm
  rw [if_neg (h g hgm)]

theorem collectDeviceProps_eq_nil (parse : String → Except String DateParts)
    (fp D : String) (dl : List PrtgDeviceListItemStruct)
    (h : ∀ dev ∈ dl, dev.Device ≠ D) :
    RouterV1.collectDeviceProps parse fp D dl = [] := by
  unfold RouterV1.collectDeviceProps
  rw [List.filterMap_eq_nil]
  intro dev hdm
  rw [if_neg (h dev hdm)]

theorem collectSensorProps_eq_nil (parse : String → Except String DateParts)
    (fp S : String) (sl : List PrtgSensorListItemStruct)
    (h : ∀ sen ∈ sl, sen.Sensor ≠ S) :
    RouterV1.collectSensorProps parse fp S sl = [] := by
  unfold RouterV1.collectSensorProps
  rw [List.filterMap_eq_nil]
  intro sen hsm
  rw [if_neg (h sen hsm)]

/-- C3 (amended): for a property query whose entity name matches no
record in the fetched collection, the `PRTGDatasource` revision of
`handlePropertyQuery` returns the explicit not-found error, but the
`Datasource` revision returns a response with no frames and no error;
neither emits a frame with placeholder data. -/
theorem propertyQuery_unknown_entity (parse : String → Except String DateParts)
    (qm : queryModel) (fp : String)
    (gResp : PrtgGroupListResponse) (dResp : PrtgDevicesListResponse)
    (sResp : PrtgSensorsListResponse)
    (hg : ∀ g ∈ gResp.Groups, g.Group ≠ qm.Group)
    (hd : ∀ dev ∈ dResp.Devices, dev.Device ≠ qm.Device)
    (hs : ∀ sen ∈ sResp.Sensors, sen.Sensor ≠ qm.Sensor) :
    (qm.Property = "group" →
        RouterV1.handlePropertyQuery parse qm fp (Except.ok gResp) (Except.ok dResp)
            (Except.ok sResp) = { frames := [], error := none } ∧
        RouterV2.handlePropertyQuery parse qm fp (Except.ok gResp) (Except.ok dResp)
            (Except.ok sResp) = ErrDataResponse "Gruppe nicht gefunden") ∧
    (qm.Property = "device" →
        RouterV1.handlePropertyQuery parse qm fp (Except.ok gResp) (Except.ok dResp)
            (Except.ok sResp) = { frames := [], error := none } ∧
        RouterV2.handlePropertyQuery parse qm fp (Except.ok gResp) (Except.ok dResp)
            (Except.ok sResp) = ErrDataResponse "Gerät nicht gefunden") ∧
    (qm.Property = "sensor" →
        RouterV1.handlePropertyQuery parse qm fp (Except.ok gResp) (Except.ok dResp)
            (Except.ok sResp) = { frames := [], error := none } ∧
        RouterV2.handlePropertyQuery parse qm fp (Except.ok gResp) (Except.ok dResp)
            (Except.ok sResp) = ErrDataResponse "Sensor nicht gefunden") := by
  have hfg : gResp.Groups.find? (fun g => g.Group == qm.Group) = none := by
    rw [List.find?_eq_none]
    intro g hgm
    simp [hg g hgm]
  have hfd : dResp.Devices.find? (fun dev => dev.Device == qm.Device) = none := by
    rw [List.find?_eq_none]
    intro dev hdm
    simp [hd dev hdm]
  have hfs : sResp.Sensors.find? (fun sen => sen.Sensor == qm.Sensor) = none := by
    rw [List.find?_eq_none]
    intro sen hsm
    simp [hs sen hsm]
  refine ⟨fun hp => ⟨?_, ?_⟩, fun hp => ⟨?_, ?_⟩, fun hp => ⟨?_, ?_⟩⟩
  · have h1 : RouterV1.handlePropertyQuery parse qm fp (Except.ok gResp) (Except.ok dResp)
        (Except.ok sResp) =
        RouterV1.finishPropertyFrame qm fp
          (RouterV1.collectGroupProps parse fp qm.Group gResp.Groups) := by
      unfold RouterV1.handlePropertyQuery
      rw [hp]
      rfl
    rw [h1, collectGroupProps_eq_nil parse fp qm.Group gResp.Groups hg]
    rfl
  · have h1 : RouterV2.handlePropertyQuery parse qm fp (Except.ok gResp) (Except.ok dResp)
        (Except.ok sResp) =
        (match gResp.Groups.find? (fun g => g.Group == qm.Group) with
         | none => ErrDataResponse "Gruppe nicht gefunden"
         | some groupInfo =>
           match parse groupInfo.Datetime with
           | Except.error e => ErrDataResponse ("Datum parsen fehlgeschlagen: " ++ e)
           | Except.ok timestamp =>
             { frames := [RouterV2.createFields timestamp
                           (if fp = "" then "status" else fp)
                           (RouterV2.getPropertyValueGroup
                             (if fp = "" then "status" else fp) groupInfo)
                           groupInfo.Group "" ""],
               error := none }) := by
      unfold RouterV2.handlePropertyQuery
      rw [hp]
      rfl
    rw [h1, hfg]
  · have h1 : RouterV1.handlePropertyQuery parse qm fp (Except.ok gResp) (Except.ok dResp)
        (Except.ok sResp) =
        RouterV1.finishPropertyFrame qm fp
          (RouterV1.collectDeviceProps parse fp qm.Device dResp.Devices) := by
      unfold RouterV1.handlePropertyQuery
      rw [hp]
      rfl
    rw [h1, collectDeviceProps_eq_nil parse fp qm.Device dResp.Devices hd]
    rfl
  · have h1 : RouterV2.handlePropertyQuery parse qm fp (Except.ok gResp) (Except.ok dResp)
        (Except.ok sResp) =
        (match dResp.Devices.find? (fun dev => dev.Device == qm.Device) with
         | none => ErrDataResponse "Gerät nicht gefunden"
         | some deviceInfo =>
           match parse deviceInfo.Datetime with
           | Except.error e => ErrDataResponse ("Datum parsen fehlgeschlagen: " ++ e)
           | Except.ok timestamp =>
             { frames := [RouterV2.createFields timestamp
                           (if fp = "" then "status" else fp)
                           (RouterV2.getPropertyValueDevice
                             (if fp = "" then "status" else fp) deviceInfo)
                           deviceInfo.Group deviceInfo.Device ""],
               error := none }) := by
      unfold RouterV2.handlePropertyQuery
      rw [hp]
      rfl
    rw [h1, hfd]
  · have h1 : RouterV1.handlePropertyQuery parse qm fp (Except.ok gResp) (Except.ok dResp)
        (Except.ok sResp) =
        RouterV1.finishPropertyFrame qm fp
          (RouterV1.collectSensorProps parse fp qm.Sensor sResp.Sensors) := by
      unfold RouterV1.handlePropertyQuery
      rw [hp]
      rfl
    rw [h1, collectSensorProps_eq_nil parse fp qm.Sensor sResp.Sensors hs]
    rfl
  · have h1 : RouterV2.handlePropertyQuery parse qm fp (Except.ok gResp) (Except.ok dResp)
        (Except.ok sResp) =
        (match sResp.Sensors.find? (fun sen => sen.Sensor == qm.Sensor) with
         | none => ErrDataResponse "Sensor nicht gefunden"
         | some sensorInfo =>
           match parse sensorInfo.Datetime with
           | Except.error e => ErrDataResponse ("Datum parsen fehlgeschlagen: " ++ e)
           | Except.ok timestamp =>
             { frames := [RouterV2.createFields timestamp
                           (if fp = "" then "status" else fp)
                           (RouterV2.getPropertyValueSensor
                             (if fp = "" then "status" else fp) sensorInfo)
                           sensorInfo.Group sensorInfo.Device sensorInfo.Sensor],
               error := none }) := by
      unfold RouterV2.handlePropertyQuery
      rw [hp]
      rfl
    rw [h1, hfs]

/-- Counterexample to C3 as stated: in the `Datasource` revision, a
group property query for `"Network Devices"` against a fetched
collection containing no such group yields a response with no error at
all (and no frames) — not the claimed explicit not-found error. -/
theorem propertyQuery_unknown_entity_no_error :
    RouterV1.handlePropertyQuery specParsePRTGDateTime
        { QueryType := "text", Property := "group", Group := "Network Devices" } "status"
        (Except.ok {}) (Except.ok {}) (Except.ok {}) =
      { frames := [], error := none } := by
  rfl

/-- Witness for C3 (amended) at an unknown group name over empty fetched
collections. -/
theorem propertyQuery_unknown_entity_witness :
    RouterV2.handlePropertyQuery specParsePRTGDateTime
        { QueryType := "text", Property := "group", Group := "Network Devices" } "status"
        (Except.ok {}) (Except.ok {}) (Except.ok {}) =
      ErrDataResponse "Gruppe nicht gefunden" :=
  ((propertyQuery_unknown_entity specParsePRTGDateTime
      { QueryType := "text", Property := "group", Group := "Network Devices" } "status"
      {} {} {} (by intro g hgm; cases hgm) (by intro d hdm; cases hdm)
      (by intro s hsm; cases hsm)).1 rfl).2

/-! ## The `datetime` key of a historical point -/

theorem mapGet_filter_self {α : Type} (l : List (String × α)) (key : String) :
    mapGet (l.filter (fun kv => kv.1 ≠ key)) key = none := by
  induction l with
  | nil => rfl
  | cons kv rest ih =>
    rcases kv with ⟨k, v⟩
    by_cases hk : k = key
    · subst hk
      simp_all [List.filter_cons, mapGet]
    · simp_all [List.filter_cons, mapGet]

/-- C10: `PrtgValues.UnmarshalJSON` never leaves a `"datetime"` key in
the dynamic value map (first conjunct, for every decoded object); a
string-valued `"datetime"` is stored in the `Datetime` field (second
conjunct); consequently a channel literally named `"datetime"` can never
be matched by the channel lookup the metric path performs on such a
point — the point is zero-filled instead (third conjunct, for every
datetime parser that accepts the stored field). -/
theorem unmarshal_removes_datetime_key (raw : List (String × GoValue)) (dt : String)
    (parse : String → Except String DateParts) (t : DateParts)
    (hdt : mapGet raw "datetime" = some (GoValue.str dt))
    (hp : parse (PrtgValues.UnmarshalJSON raw).Datetime = Except.ok t) :
    (∀ raw2 : List (String × GoValue),
        mapGet (PrtgValues.UnmarshalJSON raw2).Value "datetime" = none) ∧
    (PrtgValues.UnmarshalJSON raw).Datetime = dt ∧
    RouterV1.processHistData parse "datetime" [PrtgValues.UnmarshalJSON raw] =
      ([t], [0]) := by
  have hnone : ∀ raw2 : List (String × GoValue),
      mapGet (PrtgValues.UnmarshalJSON raw2).Value "datetime" = none := by
    intro raw2
    unfold PrtgValues.UnmarshalJSON
    exact mapGet_filter_self raw2 "datetime"
  refine ⟨hnone, ?_, ?_⟩
  · unfold PrtgValues.UnmarshalJSON
    rw [hdt]
  · simp [RouterV1.processHistData, RouterV1.processStep, hp, hnone raw]

/-- Witness for C10 at a decoded point with keys `"datetime"` and
`"percent"`. -/
theorem unmarshal_removes_datetime_key_witness :
    mapGet (PrtgValues.UnmarshalJSON
        [("datetime", GoValue.str "15.02.2025 12:00:00"),
         ("percent", GoValue.float 5)]).Value "datetime" = none ∧
    (PrtgValues.UnmarshalJSON
        [("datetime", GoValue.str "15.02.2025 12:00:00"),
         ("percent", GoValue.float 5)]).Datetime = "15.02.2025 12:00:00" ∧
    RouterV1.processHistData specParsePRTGDateTime "datetime"
        [PrtgValues.UnmarshalJSON
          [("datetime", GoValue.str "15.02.2025 12:00:00"),
           ("percent", GoValue.float 5)]] = ([⟨2025, 2, 15, 12, 0, 0⟩], [0]) :=
  let h := unmarshal_removes_datetime_key
    [("datetime", GoValue.str "15.02.2025 12:00:00"), ("percent", GoValue.float 5)]
    "15.02.2025 12:00:00" specParsePRTGDateTime ⟨2025, 2, 15, 12, 0, 0⟩ rfl rfl
  ⟨h.1 _, h.2.1, h.2.2⟩
